import Mathlib

/-!
Shallow embedding of the network discovery and classification engine
(`src/engine/scanner.ts`, class `NetworkScanner`), together with proofs of
the specification's testable properties.

Modelling conventions:
* times (`Date` values) are `Nat` tick counts;
* record ids (`generateId()` UUIDs) are `String`s supplied as explicit
  fresh-id arguments;
* the persisted tables (`discovered_devices`, `network_scans`) are `List`s
  of records, in insertion order;
* a TypeScript `string | undefined` is `Option String`; the `a || b`
  falsy-coalescing idiom (which also treats the empty string as absent) is
  the function `strOrElse`;
* fallible OS primitives (interface enumeration, ping, TCP connect) are
  passed in as `Except`-valued inputs, so that the error-handling structure
  of each function is explicit.
-/

/-- TypeScript `a || b` on optional strings: both `undefined` and the empty
string are falsy and fall through to `b`. -/
def strOrElse (a b : Option String) : Option String :=
  match a with
  | some s => if s = "" then b else some s
  | none => b

/-- `scanType` of `ScanOptions` / `network_scans.scan_type`. -/
inductive ScanType where
  | arp | mdns | port | snmp | full | quick
deriving DecidableEq, Repr

/-- `network_scans.status`. -/
inductive JobStatus where
  | pending | running | completed | failed | cancelled
deriving DecidableEq, Repr

/-- `ScanResult` of scanner.ts: one observation of a host per probe pass. -/
structure ProbeResult where
  ipAddress : String
  macAddress : Option String
  hostname : Option String
  vendor : Option String
  responseTimeMs : Option Nat
  isAlive : Bool
deriving DecidableEq, Repr

/-- The columns of `discovered_devices` that scanner.ts reads or writes. -/
structure DiscoveredDevice where
  id : String
  ipAddress : String
  macAddress : Option String
  hostname : Option String
  macVendor : Option String
  classification : String
  deviceType : String
  linkedDeviceId : Option String
  firstSeenAt : Nat
  lastSeenAt : Nat
  lastScanId : Option String
  responseTimeMs : Option Nat
  isReachable : Bool
  openPorts : Option (List Nat)
  notes : Option String
  createdAt : Nat
  updatedAt : Nat
deriving DecidableEq, Repr

/-- The columns of `network_scans` that scanner.ts reads or writes. -/
structure ScanJob where
  id : String
  scanType : ScanType
  targetNetwork : String
  status : JobStatus
  progress : Nat
  devicesFound : Nat
  newDevicesFound : Nat
  startedAt : Nat
  completedAt : Option Nat
  errorMessage : Option String
  createdAt : Nat
  updatedAt : Nat
deriving DecidableEq, Repr

/-- `ScanOptions` of scanner.ts (`portRange` and `timeout` are accepted but
never read by the scanner). -/
structure ScanOptions where
  targetNetwork : Option String
  scanType : ScanType
  portRange : Option String
  timeout : Option Nat
deriving DecidableEq, Repr

/-- `part.toString(2).split('1').length - 1` of `ipToCidr`: the number of
set bits of one netmask octet. -/
def popCount (n : Nat) : Nat :=
  if h : n = 0 then 0 else popCount (n / 2) + n % 2
termination_by n
decreasing_by exact Nat.div_lt_self (Nat.pos_of_ne_zero h) (by omega)

/-- `ipToCidr(ip, netmask)`: AND the address with the mask octet-wise and
count the mask's set bits for the prefix length. -/
def ipToCidr (ip netmask : String) : String :=
  let maskParts := (netmask.splitOn ".").map (fun s => s.toNat?.getD 0)
  let bits := maskParts.foldl (fun acc p => acc + popCount p) 0
  let ipParts := (ip.splitOn ".").map (fun s => s.toNat?.getD 0)
  let networkParts := (List.range ipParts.length).map
    (fun i => Nat.land (ipParts.getD i 0) (maskParts.getD i 0))
  let body := String.intercalate "." (networkParts.map (fun p => toString p))
  s!"{body}/{bits}"

/-- One entry of Node's `os.networkInterfaces()` output. -/
structure InterfaceAddr where
  family : String
  internal : Bool
  address : String
  netmask : String
deriving DecidableEq, Repr

/-- One element of `getLocalNetworks`'s result. -/
structure LocalNetwork where
  interface : String
  cidr : String
  ip : String
deriving DecidableEq, Repr

/-- `getLocalNetworks()`: keep IPv4, non-internal addresses and derive each
one's CIDR. The body has no try/catch, so a failing `networkInterfaces()`
call propagates to the caller; the OS query is the `Except`-valued input. -/
def getLocalNetworks (osQuery : Except String (List (String × List InterfaceAddr))) :
    Except String (List LocalNetwork) :=
  match osQuery with
  | Except.error e => Except.error e
  | Except.ok interfaces =>
    Except.ok (interfaces.foldl
      (fun networks entry =>
        networks ++ (entry.2.filter (fun a => a.family == "IPv4" && !a.internal)).map
          (fun a => { interface := entry.1, cidr := ipToCidr a.address a.netmask,
                      ip := a.address }))
      [])

/-- `v.includes(pat)` on strings. -/
def strIncludes (s pat : String) : Bool :=
  (s.splitOn pat).length != 1

/-- `guessDeviceType(vendor?)`: case-insensitive substring heuristics from
vendor name to device type; a falsy vendor yields `unknown`. -/
def guessDeviceType (vendor : Option String) : String :=
  match strOrElse vendor none with
  | none => "unknown"
  | some vend =>
    let v := vend.toLower
    if strIncludes v "ubiquiti" then "access_point"
    else if strIncludes v "synology" || strIncludes v "qnap" then "nas"
    else if strIncludes v "raspberry" then "iot"
    else if strIncludes v "apple" then "workstation"
    else if strIncludes v "vmware" || strIncludes v "microsoft" || strIncludes v "hyper-v"
         || strIncludes v "qemu" || strIncludes v "virtualbox" then "server"
    else if strIncludes v "netgear" || strIncludes v "tp-link" || strIncludes v "d-link" then "router"
    else if strIncludes v "hp" || strIncludes v "hewlett" then "workstation"
    else if strIncludes v "starlink" then "router"
    else if strIncludes v "google" || strIncludes v "nest" then "iot"
    else "unknown"

/-- The value `result.macAddress || ''` used in the reconciliation query. -/
def probeMacKey (r : ProbeResult) : String :=
  (r.macAddress.getD "")

/-- The reconciliation lookup `or(eq(macAddress, result.macAddress || ''),
eq(ipAddress, result.ipAddress))`; per SQL semantics a NULL stored
`mac_address` never compares equal. -/
def matchesProbe (r : ProbeResult) (d : DiscoveredDevice) : Bool :=
  d.macAddress == some (probeMacKey r) || d.ipAddress == r.ipAddress

/-- The insert branch of the reconciliation loop of `runScan` (new device). -/
def newDevice (r : ProbeResult) (scanId : String) (now : Nat) (freshId : String) :
    DiscoveredDevice :=
  { id := freshId
    ipAddress := r.ipAddress
    macAddress := strOrElse r.macAddress none
    hostname := none
    macVendor := strOrElse r.vendor none
    classification := "unknown"
    deviceType := guessDeviceType r.vendor
    linkedDeviceId := none
    firstSeenAt := now
    lastSeenAt := now
    lastScanId := some scanId
    responseTimeMs := r.responseTimeMs
    isReachable := r.isAlive
    openPorts := none
    notes := none
    createdAt := now
    updatedAt := now }

/-- The update branch of the reconciliation loop of `runScan`, applied to the
matched record: refresh ipAddress, macAddress and macVendor (falling back to
the prior stored value when the probe's value is falsy), lastSeenAt,
lastScanId, isReachable and updatedAt; everything else is untouched. -/
def updateDevice (r : ProbeResult) (scanId : String) (now : Nat)
    (d : DiscoveredDevice) : DiscoveredDevice :=
  { d with
    ipAddress := r.ipAddress
    macAddress := strOrElse r.macAddress d.macAddress
    macVendor := strOrElse r.vendor d.macVendor
    lastSeenAt := now
    lastScanId := some scanId
    isReachable := r.isAlive
    updatedAt := now }

/-- One iteration of `runScan`'s device loop: look up an existing record by
MAC-or-IP; insert a new record when none matches, otherwise update the first
match (`existing[0]`). Returns the new table and whether a record was
created (the `newDevicesFound++` branch). -/
def reconcile (store : List DiscoveredDevice) (r : ProbeResult)
    (scanId : String) (now : Nat) (freshId : String) :
    List DiscoveredDevice × Bool :=
  match store.filter (fun d => matchesProbe r d) with
  | [] => (store ++ [newDevice r scanId now freshId], true)
  | e :: _ =>
    (store.map (fun d => if d.id == e.id then updateDevice r scanId now d else d), false)

/-- The operator-facing frame of a DiscoveredDevice: the fields reconciliation
must never touch. -/
def frameProj (d : DiscoveredDevice) :
    String × Option String × Nat × Option String :=
  (d.classification, d.notes, d.firstSeenAt, d.linkedDeviceId)

/-- The i-th target address of `pingSweep`: the first three octets of the
CIDR's base address (parsed with `Number`, here `toNat?` defaulting to 0)
with host offset `i` as the last octet. -/
def targetAddr (cidr : String) (i : Nat) : String :=
  let baseIp := (cidr.splitOn "/").getD 0 ""
  let baseParts := (baseIp.splitOn ".").map (fun s => s.toNat?.getD 0)
  let a := baseParts.getD 0 0
  let b := baseParts.getD 1 0
  let c := baseParts.getD 2 0
  s!"{a}.{b}.{c}.{i}"

/-- The prefix length parsed from the CIDR (`parseInt(bits, 10)`). -/
def cidrPrefix (cidr : String) : Nat :=
  ((cidr.splitOn "/").getD 1 "").toNat?.getD 0

/-- The addresses `pingSweep` probes: the loop `for i = 1; i <= 254; i++`,
regardless of the CIDR's prefix length (prefixes wider than /24 only log a
warning; the sweep is still capped at 254 hosts). -/
def sweepTargets (cidr : String) : List String :=
  (List.range 254).map (fun i => targetAddr cidr (i + 1))

/-- `pingHost(ip)`: the `catch` swallows every ping failure, so the call
always returns normally. The ping outcome is the `Except`-valued input. -/
def pingHost (outcome : Except String Unit) : Except String Unit :=
  match outcome with
  | Except.ok _ => Except.ok ()
  | Except.error _ => Except.ok ()

/-- `pingSweep(cidr)`: probe each target address in turn (the source batches
them 50 at a time with `Promise.allSettled`; sequencing them one by one has
the same error behaviour, since each `pingHost` already absorbs its own
failure). `outcome` gives the ping result per address. -/
def pingSweep (cidr : String) (outcome : String → Except String Unit) :
    Except String Unit :=
  (sweepTargets cidr).foldl
    (fun acc a => acc.bind (fun _ => pingHost (outcome a))) (Except.ok ())

/-- One element of `scanPorts`'s result. -/
structure PortResult where
  port : Nat
  «open» : Bool
deriving DecidableEq, Repr

/-- The default port list of `scanPorts`. -/
def defaultPorts : List Nat := [22, 80, 443, 8080, 8443]

/-- `scanPorts(ip, ports)`: one TCP connect attempt per requested port;
success means open, any failure is caught and recorded as closed. The
connect outcome per port is the `Except`-valued input. -/
def scanPorts (ip : String) (ports : List Nat)
    (connect : String → Nat → Except String Unit) : List PortResult :=
  ports.map (fun port =>
    match connect ip port with
    | Except.ok _ => { port := port, «open» := true }
    | Except.error _ => { port := port, «open» := false })

/-- The `network_scans` row inserted by `startScan`: the job is persisted
directly at status `running`, progress 0. -/
def mkScanJob (id : String) (st : ScanType) (target : String) (now : Nat) :
    ScanJob :=
  { id := id
    scanType := st
    targetNetwork := target
    status := JobStatus.running
    progress := 0
    devicesFound := 0
    newDevicesFound := 0
    startedAt := now
    completedAt := none
    errorMessage := none
    createdAt := now
    updatedAt := now }

/-- `startScan(options)`: use the explicit target CIDR when one is given
(falsy-checked: `if (!targetNetwork)`), otherwise the first local
interface's CIDR; with neither, throw before any job row is inserted.
Returns the scan id (or the error) together with the resulting job table. -/
def startScan (options : ScanOptions) (networks : List LocalNetwork)
    (jobs : List ScanJob) (freshId : String) (now : Nat) :
    Except String String × List ScanJob :=
  match strOrElse options.targetNetwork none with
  | some target =>
    (Except.ok freshId, jobs ++ [mkScanJob freshId options.scanType target now])
  | none =>
    match networks with
    | n :: _ =>
      (Except.ok freshId, jobs ++ [mkScanJob freshId options.scanType n.cidr now])
    | [] => (Except.error "No local networks found", jobs)

/-- The sequence of `progress` values `runScan` writes after the initial
insert, in program order: 10 after job creation, 50 after the ARP/ping pass,
70 before the port pass (full/port scans only), and 100 in the final
completed update. -/
def progressWrites (st : ScanType) : List Nat :=
  [10, 50]
    ++ (match st with
        | ScanType.full => [70]
        | ScanType.port => [70]
        | _ => [])
    ++ [100]

/-- The progress values written over a job's lifetime together with its
terminal status: `failAt = none` models a run in which every step succeeds
(`runScan` ends with the `completed` update); `failAt = some k` models an
exception thrown after `k` of `runScan`'s progress writes landed, in which
case `startScan`'s `.catch` handler marks the job `failed` without touching
`progress`. The initial 0 comes from the insert in `startScan`. -/
def scanTrace (st : ScanType) (failAt : Option Nat) : List Nat × JobStatus :=
  match failAt with
  | none => (0 :: progressWrites st, JobStatus.completed)
  | some k => (0 :: (progressWrites st).take k, JobStatus.failed)

/-- `getScanStatus(scanId)`: `result[0] || null` on a lookup by id. -/
def getScanStatus (jobs : List ScanJob) (scanId : String) : Option ScanJob :=
  (jobs.filter (fun j => j.id == scanId)).head?

/-- `classifyDevice(deviceId, classification, notes?)`: a single `update ...
where id = deviceId`. Drizzle omits columns whose value is `undefined` from
the generated UPDATE, so `notes: notes || undefined` writes the notes column
only when a non-empty notes string was supplied; a deviceId matching no row
updates nothing and raises no error. -/
def classifyDevice (store : List DiscoveredDevice) (deviceId : String)
    (classification : String) (notes : Option String) (now : Nat) :
    List DiscoveredDevice :=
  store.map (fun d =>
    if d.id == deviceId then
      { d with
        classification := classification
        notes := match strOrElse notes none with
                 | some n => some n
                 | none => d.notes
        updatedAt := now }
    else d)

/-- A concrete probe observation (host `192.168.1.1` from the ARP table),
used to evaluate the theorems below on closed inputs. -/
def sampleProbe : ProbeResult :=
  { ipAddress := "192.168.1.1"
    macAddress := some "AA:BB:CC:00:11:22"
    hostname := none
    vendor := none
    responseTimeMs := none
    isAlive := true }

/-- A concrete persisted device record matching `sampleProbe`, with operator
classification and notes already set. -/
def sampleDevice : DiscoveredDevice :=
  { id := "dev-1"
    ipAddress := "192.168.1.1"
    macAddress := some "AA:BB:CC:00:11:22"
    hostname := none
    macVendor := some "Ubiquiti"
    classification := "known"
    deviceType := "access_point"
    linkedDeviceId := none
    firstSeenAt := 5
    lastSeenAt := 9
    lastScanId := some "scan-0"
    responseTimeMs := none
    isReachable := true
    openPorts := none
    notes := some "core switch"
    createdAt := 5
    updatedAt := 9 }

/-- A ping outcome map under which every probe times out. -/
def alwaysFailPing : String → Except String Unit :=
  fun _ => Except.error "timeout"

/-- A TCP connect map under which every port refuses the connection. -/
def alwaysRefuse : String → Nat → Except String Unit :=
  fun _ _ => Except.error "refused"

/-! ## Theorems -/

/-- C1: reconciliation is idempotent. Starting from a table with no record
matching the observation (and a fresh id for the insert), reconciling the
same `{mac, ip}` observation a second time takes the update branch (created
= false), leaves exactly one record matching that host, and that record
keeps `firstSeenAt` from the first pass while `lastSeenAt` advances to the
second pass's time; no duplicate is created. -/
theorem C1_reconcile_idempotent (store : List DiscoveredDevice) (r : ProbeResult)
    (sid1 sid2 : String) (t1 t2 : Nat) (id1 id2 : String)
    (hnone : store.filter (fun d => matchesProbe r d) = [])
    (hfresh : ∀ d ∈ store, d.id ≠ id1) :
    (reconcile store r sid1 t1 id1).2 = true ∧
    (reconcile (reconcile store r sid1 t1 id1).1 r sid2 t2 id2).2 = false ∧
    ((reconcile (reconcile store r sid1 t1 id1).1 r sid2 t2 id2).1.filter
        (fun d => matchesProbe r d)).length = 1 ∧
    ∀ d ∈ (reconcile (reconcile store r sid1 t1 id1).1 r sid2 t2 id2).1,
      matchesProbe r d = true → d.firstSeenAt = t1 ∧ d.lastSeenAt = t2 := by
  have hmatchNew : matchesProbe r (newDevice r sid1 t1 id1) = true := by
    simp [matchesProbe, newDevice]
  have h1 : reconcile store r sid1 t1 id1 = (store ++ [newDevice r sid1 t1 id1], true) := by
    unfold reconcile
    rw [hnone]
  have hfilter1 : (store ++ [newDevice r sid1 t1 id1]).filter (fun d => matchesProbe r d)
      = [newDevice r sid1 t1 id1] := by
    rw [List.filter_append, hnone]
    simp [hmatchNew]
  have hmapfix : store.map
      (fun d => if d.id == (newDevice r sid1 t1 id1).id then updateDevice r sid2 t2 d else d)
      = store := by
    have h : store.map
        (fun d => if d.id == (newDevice r sid1 t1 id1).id then updateDevice r sid2 t2 d else d)
        = store.map id :=
      List.map_congr_left (fun d hd => by
        have hne := hfresh d hd
        simp [newDevice, hne])
    rw [h, List.map_id]
  have h2 : reconcile (store ++ [newDevice r sid1 t1 id1]) r sid2 t2 id2 =
      (store ++ [updateDevice r sid2 t2 (newDevice r sid1 t1 id1)], false) := by
    unfold reconcile
    rw [hfilter1]
    simp only [List.map_append, hmapfix, List.map_cons, List.map_nil,
      beq_self_eq_true, if_pos]
  have hmatchUpd : matchesProbe r (updateDevice r sid2 t2 (newDevice r sid1 t1 id1)) = true := by
    simp [matchesProbe, updateDevice]
  refine ⟨by rw [h1], ?_, ?_, ?_⟩
  · rw [h1]
    exact congrArg Prod.snd h2
  · rw [h1]
    show ((reconcile (store ++ [newDevice r sid1 t1 id1]) r sid2 t2 id2).1.filter
      (fun d => matchesProbe r d)).length = 1
    rw [h2]
    show ((store ++ [updateDevice r sid2 t2 (newDevice r sid1 t1 id1)]).filter
      (fun d => matchesProbe r d)).length = 1
    rw [List.filter_append, hnone]
    simp [hmatchUpd]
  · rw [h1]
    show ∀ d ∈ (reconcile (store ++ [newDevice r sid1 t1 id1]) r sid2 t2 id2).1, _
    rw [h2]
    intro d hd hm
    rcases List.mem_append.mp hd with hstore | hupd
    · exact absurd hm (by simpa using List.filter_eq_nil_iff.mp hnone d hstore)
    · have hd' : d = updateDevice r sid2 t2 (newDevice r sid1 t1 id1) := by
        simpa using hupd
      subst hd'
      exact ⟨rfl, rfl⟩

/-- Witness for C1 at a concrete input: an empty table and the sample
observation. -/
theorem C1_reconcile_idempotent_witness :
    (reconcile [] sampleProbe "scan-1" 10 "dev-1").2 = true ∧
    (reconcile (reconcile [] sampleProbe "scan-1" 10 "dev-1").1 sampleProbe "scan-2" 20 "dev-2").2 = false ∧
    ((reconcile (reconcile [] sampleProbe "scan-1" 10 "dev-1").1 sampleProbe "scan-2" 20 "dev-2").1.filter
        (fun d => matchesProbe sampleProbe d)).length = 1 ∧
    ∀ d ∈ (reconcile (reconcile [] sampleProbe "scan-1" 10 "dev-1").1 sampleProbe "scan-2" 20 "dev-2").1,
      matchesProbe sampleProbe d = true → d.firstSeenAt = 10 ∧ d.lastSeenAt = 20 :=
  C1_reconcile_idempotent [] sampleProbe "scan-1" "scan-2" 10 20 "dev-1" "dev-2"
    rfl (by simp)

/-- C2: the reconciler's update branch is frame-correct. When an existing
record matches the observation, the resulting table agrees with the old one
on `classification`, `notes`, `firstSeenAt` and `linkedDeviceId` for every
record, and the matched record (`existing[0]`) gets exactly the refreshed
fields: `ipAddress`, `macAddress` and `macVendor` with fallback to the prior
stored value when the probe resolved none, `lastSeenAt = now`, `lastScanId`
and `isReachable`. -/
theorem C2_update_frame (store : List DiscoveredDevice) (r : ProbeResult)
    (sid : String) (now : Nat) (fid : String) (e : DiscoveredDevice)
    (rest : List DiscoveredDevice)
    (hmatch : store.filter (fun d => matchesProbe r d) = e :: rest) :
    (reconcile store r sid now fid).1.map frameProj = store.map frameProj ∧
    (reconcile store r sid now fid).2 = false ∧
    ∃ d' ∈ (reconcile store r sid now fid).1,
      d'.id = e.id ∧ d'.ipAddress = r.ipAddress ∧
      d'.macAddress = strOrElse r.macAddress e.macAddress ∧
      d'.macVendor = strOrElse r.vendor e.macVendor ∧
      d'.lastSeenAt = now ∧ d'.lastScanId = some sid ∧
      d'.isReachable = r.isAlive := by
  have h0 : reconcile store r sid now fid =
      (store.map (fun d => if d.id == e.id then updateDevice r sid now d else d), false) := by
    unfold reconcile
    rw [hmatch]
  have he_store : e ∈ store := by
    have he : e ∈ store.filter (fun d => matchesProbe r d) := by
      rw [hmatch]
      exact List.mem_cons_self e rest
    exact List.mem_of_mem_filter he
  refine ⟨?_, ?_, ?_⟩
  · rw [h0]
    show (store.map (fun d => if d.id == e.id then updateDevice r sid now d else d)).map
      frameProj = store.map frameProj
    rw [List.map_map]
    apply List.map_congr_left
    intro d _
    show frameProj (if d.id == e.id then updateDevice r sid now d else d) = frameProj d
    by_cases h : (d.id == e.id) = true
    · rw [if_pos h]
      rfl
    · rw [if_neg h]
  · rw [h0]
  · rw [h0]
    show ∃ d' ∈ store.map (fun d => if d.id == e.id then updateDevice r sid now d else d), _
    refine ⟨updateDevice r sid now e, List.mem_map.mpr ⟨e, he_store, by simp⟩,
      rfl, rfl, rfl, rfl, rfl, rfl, rfl⟩

/-- Witness for C2 at a concrete input: the sample table and the matching
sample observation. -/
theorem C2_update_frame_witness :
    (reconcile [sampleDevice] sampleProbe "scan-2" 42 "dev-9").1.map frameProj
      = [sampleDevice].map frameProj ∧
    (reconcile [sampleDevice] sampleProbe "scan-2" 42 "dev-9").2 = false ∧
    ∃ d' ∈ (reconcile [sampleDevice] sampleProbe "scan-2" 42 "dev-9").1,
      d'.id = sampleDevice.id ∧ d'.ipAddress = sampleProbe.ipAddress ∧
      d'.macAddress = strOrElse sampleProbe.macAddress sampleDevice.macAddress ∧
      d'.macVendor = strOrElse sampleProbe.vendor sampleDevice.macVendor ∧
      d'.lastSeenAt = 42 ∧ d'.lastScanId = some "scan-2" ∧
      d'.isReachable = sampleProbe.isAlive :=
  C2_update_frame [sampleDevice] sampleProbe "scan-2" 42 "dev-9" sampleDevice []
    (by decide)

/-- C3: over a ScanJob's lifetime the written `progress` values are
monotonically non-decreasing; a run that reaches `completed` ends at
progress 100, while a run that fails (the exception lands before the final
completed-update) leaves every written progress value below 100. -/
theorem C3_progress_monotone (st : ScanType) (failAt : Option Nat)
    (h : ∀ k, failAt = some k → k < (progressWrites st).length) :
    List.Chain' (fun a b => a ≤ b) (scanTrace st failAt).1 ∧
    ((scanTrace st failAt).2 = JobStatus.completed →
      (scanTrace st failAt).1.getLast? = some 100) ∧
    ((scanTrace st failAt).2 = JobStatus.failed →
      ∀ p ∈ (scanTrace st failAt).1, p < 100) := by
  cases failAt with
  | none =>
    refine ⟨?_, ?_, ?_⟩ <;> cases st <;>
      simp [scanTrace, progressWrites, List.chain'_cons, List.getLast?]
  | some k =>
    have hk := h k rfl
    cases st <;> norm_num [progressWrites] at hk <;> interval_cases k <;>
      refine ⟨?_, ?_, ?_⟩ <;>
      simp [scanTrace, progressWrites, List.chain'_cons, List.getLast?]

/-- Witness for C3 at a concrete input: a full scan whose third step throws
(progress writes 0, 10, 50, then the failure handler). -/
theorem C3_progress_monotone_witness :
    List.Chain' (fun a b => a ≤ b) (scanTrace ScanType.full (some 2)).1 ∧
    ((scanTrace ScanType.full (some 2)).2 = JobStatus.completed →
      (scanTrace ScanType.full (some 2)).1.getLast? = some 100) ∧
    ((scanTrace ScanType.full (some 2)).2 = JobStatus.failed →
      ∀ p ∈ (scanTrace ScanType.full (some 2)).1, p < 100) :=
  C3_progress_monotone ScanType.full (some 2)
    (fun k hk => by
      cases hk
      decide)

/-- C4: `startScan` with no explicit target network and no local interfaces
fails with the no-network error, and the scan-job table is unchanged: the
throw happens before the job insert. -/
theorem C4_no_network_no_insert (options : ScanOptions)
    (networks : List LocalNetwork) (jobs : List ScanJob)
    (fid : String) (now : Nat)
    (htarget : options.targetNetwork = none) (hnet : networks = []) :
    startScan options networks jobs fid now =
      (Except.error "No local networks found", jobs) := by
  subst hnet
  unfold startScan
  rw [htarget]
  rfl

/-- Witness for C4 at a concrete input: an arp scan request with no target
and no interfaces, on a table holding one prior job. -/
theorem C4_no_network_no_insert_witness :
    startScan { targetNetwork := none, scanType := ScanType.arp,
                portRange := none, timeout := none }
        [] [mkScanJob "scan-0" ScanType.arp "10.0.0.0/24" 1] "scan-1" 30 =
      (Except.error "No local networks found",
        [mkScanJob "scan-0" ScanType.arp "10.0.0.0/24" 1]) :=
  C4_no_network_no_insert
    { targetNetwork := none, scanType := ScanType.arp,
      portRange := none, timeout := none }
    [] [mkScanJob "scan-0" ScanType.arp "10.0.0.0/24" 1] "scan-1" 30 rfl rfl

/-- C5 counterexample: the claim says the ScanJob is created with
status=pending and only then transitions to running. In the source,
`startScan` inserts the job row with `status: 'running'` directly; on a
concrete request the only persisted job record has status `running`, and no
`pending` state ever exists. -/
theorem C5_pending_counterexample :
    ((startScan { targetNetwork := some "192.168.1.0/24", scanType := ScanType.arp,
                  portRange := none, timeout := none }
        [] [] "scan-1" 100).2.map (fun j => j.status)) = [JobStatus.running] ∧
    JobStatus.running ≠ JobStatus.pending := by
  constructor
  · rfl
  · decide

/-- C5 amended: when a scan is requested and `startScan` succeeds, the
ScanJob is created directly with status=running and progress=0; no pending
job state is ever persisted. -/
theorem C5_created_running (options : ScanOptions) (networks : List LocalNetwork)
    (jobs : List ScanJob) (fid : String) (now : Nat)
    (hok : ∃ r, (startScan options networks jobs fid now).1 = Except.ok r) :
    ∃ target,
      (startScan options networks jobs fid now).2 =
        jobs ++ [mkScanJob fid options.scanType target now] ∧
      (mkScanJob fid options.scanType target now).status = JobStatus.running ∧
      (mkScanJob fid options.scanType target now).progress = 0 := by
  obtain ⟨res, hres⟩ := hok
  unfold startScan at hres ⊢
  cases htn : strOrElse options.targetNetwork none with
  | some target =>
    exact ⟨target, rfl, rfl, rfl⟩
  | none =>
    rw [htn] at hres
    cases networks with
    | nil => simp at hres
    | cons n ns => exact ⟨n.cidr, rfl, rfl, rfl⟩

/-- Witness for C5 at a concrete input: an explicit-target scan request on
an empty job table. -/
theorem C5_created_running_witness :
    ∃ target,
      (startScan { targetNetwork := some "192.168.1.0/24", scanType := ScanType.arp,
                   portRange := none, timeout := none } [] [] "scan-1" 100).2 =
        [] ++ [mkScanJob "scan-1" ScanType.arp target 100] ∧
      (mkScanJob "scan-1" ScanType.arp target 100).status = JobStatus.running ∧
      (mkScanJob "scan-1" ScanType.arp target 100).progress = 0 :=
  C5_created_running
    { targetNetwork := some "192.168.1.0/24", scanType := ScanType.arp,
      portRange := none, timeout := none }
    [] [] "scan-1" 100 ⟨"scan-1", rfl⟩

/-- C6 counterexample: the claim says `classifyDevice` on an unknown device
id fails with NotFound. In the source it issues a single UPDATE whose WHERE
clause matches no row: on a table whose only record has id `dev-1`, calling
it with id `nope` returns normally and changes nothing — no error of any
kind is raised. Likewise `getScanStatus` on an unknown scan id returns null
(`result[0] || null`) instead of failing. -/
theorem C6_lookup_miss_counterexample :
    classifyDevice [sampleDevice] "nope" "suspicious" (some "intruder?") 77
      = [sampleDevice] ∧
    getScanStatus [mkScanJob "scan-0" ScanType.arp "10.0.0.0/24" 1] "nope" = none := by
  constructor
  · rfl
  · rfl

/-- C6 amended: lookup misses are silent, not errors. `classifyDevice` with
a device id matching no DiscoveredDevice performs no update and returns
normally (no NotFound is raised), and `getScanStatus` with an unknown scan
id returns null rather than a job record. -/
theorem C6_lookup_miss_silent (store : List DiscoveredDevice)
    (jobs : List ScanJob) (did sid : String) (c : String)
    (notes : Option String) (now : Nat)
    (hd : ∀ d ∈ store, d.id ≠ did) (hj : ∀ j ∈ jobs, j.id ≠ sid) :
    classifyDevice store did c notes now = store ∧
    getScanStatus jobs sid = none := by
  constructor
  · unfold classifyDevice
    have h : store.map (fun d =>
        if d.id == did then
          { d with
            classification := c
            notes := match strOrElse notes none with
                     | some n => some n
                     | none => d.notes
            updatedAt := now }
        else d) = store.map id :=
      List.map_congr_left (fun d hmem => by
        have hne := hd d hmem
        simp [hne])
    rw [h, List.map_id]
  · unfold getScanStatus
    have h : jobs.filter (fun j => j.id == sid) = [] :=
      List.filter_eq_nil_iff.mpr (fun j hmem => by
        have hne := hj j hmem
        simp [hne])
    rw [h]
    rfl

/-- Witness for C6 at a concrete input: the sample tables and an id present
in neither. -/
theorem C6_lookup_miss_silent_witness :
    classifyDevice [sampleDevice] "nope" "suspicious" none 77 = [sampleDevice] ∧
    getScanStatus [mkScanJob "scan-0" ScanType.arp "10.0.0.0/24" 1] "nope" = none :=
  C6_lookup_miss_silent [sampleDevice]
    [mkScanJob "scan-0" ScanType.arp "10.0.0.0/24" 1] "nope" "nope" "suspicious"
    none 77 (by decide) (by decide)

/-- C7 counterexample: the claim says a failing OS network-interface query
makes `getLocalNetworks` return an empty sequence. The source body has no
try/catch, so the failure propagates to the caller: on a failing query the
result is that error, not the empty list. -/
theorem C7_os_failure_counterexample :
    getLocalNetworks (Except.error "EPERM") = Except.error "EPERM" ∧
    (Except.error "EPERM" : Except String (List LocalNetwork)) ≠ Except.ok [] := by
  constructor
  · rfl
  · exact fun h => Except.noConfusion h

/-- C7 amended: when the OS network-interface query fails,
`getLocalNetworks` propagates that error to its caller; an empty sequence is
returned only when the query succeeds and no non-internal IPv4 interface
exists. -/
theorem C7_os_failure_propagates (e : String) :
    getLocalNetworks (Except.error e) = Except.error e ∧
    getLocalNetworks (Except.ok []) = Except.ok [] := by
  constructor
  · rfl
  · rfl

/-- C8: the ping sweep is capped. For every target CIDR the sweep probes
exactly 254 addresses — precisely the host offsets 1..254 of the
/24-equivalent block of the declared network — and for any prefix wider
than /24 this is strictly fewer than the CIDR's full address space. -/
theorem C8_sweep_capped (cidr : String) :
    (sweepTargets cidr).length = 254 ∧
    (∀ a ∈ sweepTargets cidr, ∃ i, 1 ≤ i ∧ i ≤ 254 ∧ a = targetAddr cidr i) ∧
    (∀ i, 1 ≤ i → i ≤ 254 → targetAddr cidr i ∈ sweepTargets cidr) ∧
    (∀ p, p < 24 → 254 < 2 ^ (32 - p)) := by
  refine ⟨?_, ?_, ?_, ?_⟩
  · simp [sweepTargets]
  · intro a ha
    rcases List.mem_map.mp ha with ⟨i, hi, rfl⟩
    have hi' := List.mem_range.mp hi
    exact ⟨i + 1, by omega, by omega, rfl⟩
  · intro i h1 h2
    apply List.mem_map.mpr
    refine ⟨i - 1, List.mem_range.mpr (by omega), ?_⟩
    rw [Nat.sub_add_cancel h1]
  · intro p hp
    have h9 : (2 : Nat) ^ 9 ≤ 2 ^ (32 - p) :=
      Nat.pow_le_pow_right (by norm_num) (by omega)
    have h512 : (2 : Nat) ^ 9 = 512 := by norm_num
    omega

/-- Witness for C8 at a concrete input: a /8 network is still probed at only
254 addresses, while its address space holds 2^24. -/
theorem C8_sweep_capped_witness :
    (sweepTargets "10.0.0.0/8").length = 254 ∧ 254 < 2 ^ (32 - 8) :=
  ⟨(C8_sweep_capped "10.0.0.0/8").1,
   (C8_sweep_capped "10.0.0.0/8").2.2.2 8 (by norm_num)⟩

/-- `pingHost` returns normally whatever the ping's outcome: the catch block
swallows the failure. -/
theorem pingHost_ok (o : Except String Unit) : pingHost o = Except.ok () := by
  cases o <;> rfl

/-- Sequencing swallowed pings never produces an error, for any address
list. -/
theorem pingFold_ok (outcome : String → Except String Unit) :
    ∀ l : List String,
      l.foldl (fun acc a => acc.bind (fun _ => pingHost (outcome a)))
        (Except.ok ()) = Except.ok () := by
  intro l
  induction l with
  | nil => rfl
  | cons x xs ih =>
    simp only [List.foldl_cons]
    have h1 : ((Except.ok ()).bind (fun _ => pingHost (outcome x)) :
        Except String Unit) = Except.ok () := pingHost_ok (outcome x)
    rw [h1]
    exact ih

/-- C9: individual probe failures are swallowed. `pingSweep` returns
normally whatever each host's ping outcome is; `scanPorts` yields exactly
one entry per requested port, in order, and a failed connect yields
`open = false` for that port — neither primitive ever propagates a per-host
or per-port failure. -/
theorem C9_probe_failures_swallowed (cidr : String)
    (outcome : String → Except String Unit) (ip : String) (ports : List Nat)
    (connect : String → Nat → Except String Unit) :
    pingSweep cidr outcome = Except.ok () ∧
    (scanPorts ip ports connect).map PortResult.port = ports ∧
    (scanPorts ip ports connect).length = ports.length ∧
    ∀ pr ∈ scanPorts ip ports connect,
      (∃ e, connect ip pr.port = Except.error e) → pr.«open» = false := by
  refine ⟨?_, ?_, ?_, ?_⟩
  · unfold pingSweep
    exact pingFold_ok outcome (sweepTargets cidr)
  · unfold scanPorts
    rw [List.map_map]
    have h : ∀ p ∈ ports, (PortResult.port ∘ fun port =>
        match connect ip port with
        | Except.ok _ => ({ port := port, «open» := true } : PortResult)
        | Except.error _ => ({ port := port, «open» := false } : PortResult)) p
        = id p := by
      intro p _
      show PortResult.port (match connect ip p with
        | Except.ok _ => ({ port := p, «open» := true } : PortResult)
        | Except.error _ => ({ port := p, «open» := false } : PortResult)) = p
      cases connect ip p <;> rfl
    rw [List.map_congr_left h, List.map_id]
  · unfold scanPorts
    rw [List.length_map]
  · intro pr hpr hex
    obtain ⟨e, he⟩ := hex
    rcases List.mem_map.mp hpr with ⟨p, hp, hpr_eq⟩
    have hport : pr.port = p := by
      rw [← hpr_eq]
      show PortResult.port (match connect ip p with
        | Except.ok _ => ({ port := p, «open» := true } : PortResult)
        | Except.error _ => ({ port := p, «open» := false } : PortResult)) = p
      cases connect ip p <;> rfl
    rw [hport] at he
    rw [← hpr_eq]
    show PortResult.«open» (match connect ip p with
      | Except.ok _ => ({ port := p, «open» := true } : PortResult)
      | Except.error _ => ({ port := p, «open» := false } : PortResult)) = false
    rw [he]

/-- Witness for C9 at a concrete input: a sweep in which every ping times
out, and a port scan of the default ports in which every connect is
refused. -/
theorem C9_probe_failures_swallowed_witness :
    pingSweep "192.168.1.0/24" alwaysFailPing = Except.ok () ∧
    (scanPorts "192.168.1.9" defaultPorts alwaysRefuse).map PortResult.port
      = defaultPorts ∧
    ({ port := 22, «open» := false } : PortResult).«open» = false :=
  ⟨(C9_probe_failures_swallowed "192.168.1.0/24" alwaysFailPing "192.168.1.9"
      defaultPorts alwaysRefuse).1,
   (C9_probe_failures_swallowed "192.168.1.0/24" alwaysFailPing "192.168.1.9"
      defaultPorts alwaysRefuse).2.1,
   (C9_probe_failures_swallowed "192.168.1.0/24" alwaysFailPing "192.168.1.9"
      defaultPorts alwaysRefuse).2.2.2 { port := 22, «open» := false }
      (by decide) ⟨"refused", rfl⟩⟩

/-- C10: `classifyDevice` preserves stored notes unless a non-empty notes
value is supplied. With notes omitted, or with the empty string (both falsy,
so `notes || undefined` leaves the notes column out of the UPDATE), every
record's notes are unchanged; with a non-empty notes value the matched
record's notes are overwritten (and classification/updatedAt set) while all
other records are untouched. -/
theorem C10_notes_preserved (store : List DiscoveredDevice) (did : String)
    (c : String) (now : Nat) :
    (classifyDevice store did c none now).map (fun d => d.notes)
      = store.map (fun d => d.notes) ∧
    (classifyDevice store did c (some "") now).map (fun d => d.notes)
      = store.map (fun d => d.notes) ∧
    ∀ n, n ≠ "" →
      classifyDevice store did c (some n) now =
        store.map (fun d =>
          if d.id == did then
            { d with classification := c, notes := some n, updatedAt := now }
          else d) := by
  refine ⟨?_, ?_, ?_⟩
  · unfold classifyDevice
    rw [List.map_map]
    apply List.map_congr_left
    intro d _
    by_cases h : d.id = did <;> simp [h, strOrElse]
  · unfold classifyDevice
    rw [List.map_map]
    apply List.map_congr_left
    intro d _
    by_cases h : d.id = did <;> simp [h, strOrElse]
  · intro n hn
    unfold classifyDevice
    apply List.map_congr_left
    intro d _
    have hsome : strOrElse (some n) none = some n := by
      simp [strOrElse, hn]
    by_cases h : d.id = did <;> simp [h, hsome]

/-- Witness for C10 at a concrete input: classifying the sample device with
notes omitted keeps its stored notes; classifying it with non-empty notes
overwrites them. -/
theorem C10_notes_preserved_witness :
    (classifyDevice [sampleDevice] "dev-1" "authorized" none 50).map
        (fun d => d.notes)
      = [sampleDevice].map (fun d => d.notes) ∧
    classifyDevice [sampleDevice] "dev-1" "authorized" (some "lab AP") 50 =
      [sampleDevice].map (fun d =>
        if d.id == "dev-1" then
          { d with classification := "authorized", notes := some "lab AP",
                   updatedAt := 50 }
        else d) :=
  ⟨(C10_notes_preserved [sampleDevice] "dev-1" "authorized" 50).1,
   (C10_notes_preserved [sampleDevice] "dev-1" "authorized" 50).2.2 "lab AP"
     (by decide)⟩
